import Mathlib

/-!
# Verification of the `class-settings-decorators` resolution engine

A shallow embedding of `src/index.ts`: per-field decorator chains
(`env`, `parse`, `nested`, `overwrite`), the chain-walking resolution
algorithm (`SettingFactory.resolveValue` / `query` / `create`), the type
validation pass (`Settings.$validate` / `$validateType`) and instance
construction (`buildInstance`).

Modelling conventions:
* JS `undefined` is `Option.none`; JS `null` is the distinct `Value.null`.
* `process.env` is an opaque lookup `String → Option String`.
* Objects are modelled by their prototype-chain class names plus an
  insertion-ordered association list of fields (JS objects preserve string
  key insertion order; assigning an existing key keeps its position).
* The recursion through `nested` fields (`nestedHandler` calls
  `factory.create`, which calls `query` again) is bottomed out with a fuel
  parameter; exhausting fuel is the model of the stack-exhaustion failure
  the real engine runs into on cyclic nesting.
* Rendering of values/types inside error message interpolation
  (`${value}`, `${type}`) is abstracted by `jsDisplay` / `typeDisplay`;
  no claim depends on the exact rendering of a constructor function.
-/

namespace ClassSettings

/-- A JS runtime value: primitive string/number/boolean, `null`, or an
object carrying its prototype-chain class names and its own fields. -/
inductive Value : Type where
  | str (s : String)
  | num (n : Int)
  | boolean (b : Bool)
  | null
  | obj (protoChain : List String) (fields : List (String × Value))
deriving Repr

/-- The payload of one stored decorator config (`DecoratorTypes` in the
source): the `type` tag together with its extra datum (`env` name, `parse`
function). `overwrite` appears in the factory's handler table even though
the `overwrite()` decorator itself never stores a config. -/
inductive DecoratorKind : Type where
  | env (name : String)
  | parse (fn : Option Value → Option Value)
  | nested
  | overwrite

/-- One stored decorator config: every `DecoratorTypes` variant carries its
`propertyKey`. -/
structure DecoratorConfig : Type where
  propertyKey : String
  kind : DecoratorKind

/-- The metadata a single prototype object carries:
`ownKeys` is the own `metaClassDecorators` entry (the `Set` of decorated
property names, in insertion order; `none` when the metadata was never
defined on this prototype), `ownChains` the own per-property
`metaDecorators` entries (each a stored decorator list in push order). -/
structure ProtoNode : Type where
  ownKeys : Option (List String)
  ownChains : List (String × List DecoratorConfig)

mutual
/-- A `design:type` metadata value (`DesignType` in the source):
`undefined`, `null`, one of the built-in constructors, or a user class. -/
inductive DType : Type where
  | undefinedType
  | nullType
  | boolCtor
  | numberCtor
  | stringCtor
  | classType (c : ClassObject)

/-- A settings class object: its `name`, the class names of its prototype
chain above it (containing `"Settings"` exactly when
`prototype instanceof Settings` holds), the metadata-bearing prototype
objects from most derived to least, the `design:type` entries reachable
for its fields, and the field defaults its constructor assigns. -/
inductive ClassObject : Type where
  | mk (name : String) (ancestors : List String) (protos : List ProtoNode)
       (designTypes : List (String × DType)) (defaults : List (String × Value))
end

def ClassObject.name : ClassObject → String
  | .mk n _ _ _ _ => n

def ClassObject.ancestors : ClassObject → List String
  | .mk _ a _ _ _ => a

def ClassObject.protos : ClassObject → List ProtoNode
  | .mk _ _ p _ _ => p

def ClassObject.designTypes : ClassObject → List (String × DType)
  | .mk _ _ _ d _ => d

def ClassObject.defaults : ClassObject → List (String × Value)
  | .mk _ _ _ _ d => d

/-- `process.env`: an opaque, case-sensitive name-to-string lookup. -/
def EnvMap : Type := String → Option String

/-- A thrown JS `Error`, reduced to its message. -/
structure JSError : Type where
  message : String
deriving Repr, DecidableEq

/-- Rendering of a value under JS string interpolation. -/
def jsDisplay : Value → String
  | .str s => s
  | .num n => toString n
  | .boolean b => cond b "true" "false"
  | .null => "null"
  | .obj _ _ => "[object Object]"

/-- Rendering of a design type under JS string interpolation (the exact
native rendering of a constructor function is abbreviated). -/
def typeDisplay : DType → String
  | .undefinedType => "undefined"
  | .nullType => "null"
  | .boolCtor => "[Function Boolean]"
  | .numberCtor => "[Function Number]"
  | .stringCtor => "[Function String]"
  | .classType c => "[Function " ++ c.name ++ "]"

/-- `Array.prototype.join(sep)` on a list of strings. -/
def jsJoin (sep : String) : List String → String
  | [] => ""
  | [x] => x
  | x :: y :: rest => x ++ sep ++ jsJoin sep (y :: rest)

/-- A `ValidationError`: the stored `propertyKey` and `type`, plus the
message built by its constructor. -/
structure ValidationError : Type where
  propertyKey : String
  type : DType
  message : String

/-- The `ValidationError` constructor:
`new ValidationError(propertyKey, type, value)` builds the message
`propertyKey (value) failed to parse as type type`. -/
def ValidationError.make (propertyKey : String) (type : DType) (value : Value) :
    ValidationError :=
  { propertyKey := propertyKey
    type := type
    message := propertyKey ++ " (" ++ jsDisplay value ++ ") failed to parse as type "
      ++ typeDisplay type }

/-- `ValidationError.join(errors)`: one combined `Error` listing every
field name and every individual message. -/
def ValidationError.join (errors : List ValidationError) : JSError :=
  let fields := errors.map (·.propertyKey)
  let messages := errors.map (·.message)
  ⟨"Error in " ++ jsJoin ", " fields ++ " fields\n" ++ jsJoin "\n" messages⟩

/-- The builtin `validators` map: keyed by the `Boolean`, `Number` and
`String` constructors and the `null` literal; absent for every other
design type. -/
def validators : DType → Option (Value → Bool)
  | .boolCtor => some fun v => match v with | .boolean _ => true | _ => false
  | .numberCtor => some fun v => match v with | .num _ => true | _ => false
  | .stringCtor => some fun v => match v with | .str _ => true | _ => false
  | .nullType => some fun v => match v with | .null => true | _ => false
  | _ => none

/-- Does the value's prototype chain contain the class of the given name? -/
def Value.protoChainHas (v : Value) (n : String) : Bool :=
  match v with
  | .obj chain _ => chain.contains n
  | _ => false

/-- JS `value instanceof expectedType`: membership of the constructor's
prototype in the value's prototype chain; a `TypeError` when the
right-hand side is not callable (`undefined` or `null`). -/
def instanceOf (value : Value) (expectedType : DType) : Except JSError Bool :=
  match expectedType with
  | .undefinedType => .error ⟨"Right-hand side of 'instanceof' is not callable"⟩
  | .nullType => .error ⟨"Right-hand side of 'instanceof' is not callable"⟩
  | .boolCtor => .ok (value.protoChainHas "Boolean")
  | .numberCtor => .ok (value.protoChainHas "Number")
  | .stringCtor => .ok (value.protoChainHas "String")
  | .classType c => .ok (value.protoChainHas c.name)

namespace Settings

/-- `Settings.$validateType(expectedType, value)`: the builtin validator
when the registry has one, otherwise `value instanceof expectedType`. -/
def validateType (expectedType : DType) (value : Value) : Except JSError Bool :=
  match validators expectedType with
  | some validator => .ok (validator value)
  | none => instanceOf value expectedType

end Settings

/-- JS truthiness of a design type: only `undefined` and `null` are falsy
(every constructor function is truthy). -/
def DType.falsy : DType → Bool
  | .undefinedType => true
  | .nullType => true
  | _ => false

/-- Reading `m[k]` on a JS object modelled as an association list: the
first binding wins; a missing key reads as `undefined`, which for design
types is `DType.undefinedType`. -/
def lookupDT (m : List (String × DType)) (k : String) : DType :=
  (m.lookup k).getD .undefinedType

/-- Assigning `m[k] = v` on a JS object modelled as an association list:
an existing key keeps its position, a new key is appended. -/
def setKey {α : Type} (m : List (String × α)) (k : String) (v : α) :
    List (String × α) :=
  match m with
  | [] => [(k, v)]
  | (k', v') :: rest => if k' = k then (k, v) :: rest else (k', v') :: setKey rest k v

/-- `ValidateResult` as returned by `Settings.$validate`. -/
structure ValidateResult : Type where
  errors : Option (List ValidationError)
  success : Bool

namespace Settings

/-- The `reduce` body of `Settings.$validate` over `Object.keys(values)`:
reads `designTypes[key]`, throws `Could not resolve type for key` when that
is falsy (`undefined` or the literal `null`), otherwise runs
`$validateType` and pushes one `ValidationError` per failing field,
never stopping early. -/
def validateFold (designTypes : List (String × DType)) :
    List ValidationError → List (String × Value) → Except JSError (List ValidationError)
  | sum, [] => .ok sum
  | sum, (key, value) :: rest =>
    let type := lookupDT designTypes key
    if type.falsy then .error ⟨"Could not resolve type for " ++ key⟩
    else
      match validateType type value with
      | .error e => .error e
      | .ok true => validateFold designTypes sum rest
      | .ok false => validateFold designTypes (sum ++ [.make key type value]) rest

/-- `Settings.$validate(values, designTypes)`: collect all per-field
errors; success exactly when the collected list is empty. -/
def validate (values : List (String × Value)) (designTypes : List (String × DType)) :
    Except JSError ValidateResult := do
  let errors ← validateFold designTypes [] values
  if errors.length = 0 then pure ⟨none, true⟩ else pure ⟨some errors, false⟩

end Settings

/-- `environmentHandler`: `process.env[config.env]` — a raw string or
`undefined`; the upstream value and design type are ignored. -/
def environmentHandler (env : EnvMap) (value : Option Value) (designType : DType)
    (name : String) : Option Value :=
  (env name).map Value.str

/-- `parseHandler`: `config.fn(value)` — the stored function applied to
whatever the upstream produced, including `undefined`. -/
def parseHandler (fn : Option Value → Option Value) (value : Option Value) :
    Option Value :=
  fn value

/-- Is the class a `Settings` subclass (`prototype instanceof Settings`)? -/
def ClassObject.settingsSubclass (c : ClassObject) : Bool :=
  c.ancestors.contains "Settings"

/-- `nestedHandler`: throws when the design type is `null`/`undefined` or
not a `Settings` subclass; otherwise recursively `factory.create`s the
declared class (the recursion is abstracted as `createRec`). -/
def nestedHandler (createRec : ClassObject → Except JSError Value)
    (value : Option Value) (designType : DType) (propertyKey : String) :
    Except JSError Value :=
  match designType with
  | .undefinedType =>
    .error ⟨"design type for " ++ propertyKey ++ " is null or undefined"⟩
  | .nullType =>
    .error ⟨"design type for " ++ propertyKey ++ " is null or undefined"⟩
  | .boolCtor => .error ⟨propertyKey ++ " is not a subclass of settings"⟩
  | .numberCtor => .error ⟨propertyKey ++ " is not a subclass of settings"⟩
  | .stringCtor => .error ⟨propertyKey ++ " is not a subclass of settings"⟩
  | .classType c =>
    if c.settingsSubclass then createRec c
    else .error ⟨propertyKey ++ " is not a subclass of settings"⟩

/-- `overwriteHandler`: always `undefined`, so the accumulated value (or
absence) passes through untouched. -/
def overwriteHandler (value : Option Value) (designType : DType) : Option Value :=
  none

/-- `this.handlers[config.type](sum, designType, config, this)`: dispatch
into the factory's handler table. Every `DecoratorTypes` variant has a
registered handler, so the `unexpected handler type` throw of
`resolveValue` is unreachable here. -/
def runHandler (createRec : ClassObject → Except JSError Value) (env : EnvMap)
    (sum : Option Value) (designType : DType) (config : DecoratorConfig) :
    Except JSError (Option Value) :=
  match config.kind with
  | .env name => .ok (environmentHandler env sum designType name)
  | .parse fn => .ok (parseHandler fn sum)
  | .nested => do
    let instVal ← nestedHandler createRec sum designType config.propertyKey
    .ok (some instVal)
  | .overwrite => .ok (overwriteHandler sum designType)

namespace SettingFactory

/-- The `reduce` body of `SettingFactory.resolveValue`: run each handler
on the accumulated value; a handler returning `undefined` keeps the
previous accumulator, anything else replaces it. -/
def resolveFold (createRec : ClassObject → Except JSError Value) (env : EnvMap)
    (designType : DType) :
    Option Value → List DecoratorConfig → Except JSError (Option Value)
  | sum, [] => .ok sum
  | sum, config :: rest =>
    match runHandler createRec env sum designType config with
    | .error e => .error e
    | .ok none => resolveFold createRec env designType sum rest
    | .ok (some v) => resolveFold createRec env designType (some v) rest

/-- `SettingFactory.resolveValue(designType, decorators)`: the reduce over
the stored decorator list starting from `undefined`. -/
def resolveValue (createRec : ClassObject → Except JSError Value) (env : EnvMap)
    (designType : DType) (decorators : List DecoratorConfig) :
    Except JSError (Option Value) :=
  resolveFold createRec env designType none decorators

/-- The intermediate `classMeta` accumulator of `query`. -/
structure ClassMeta : Type where
  values : List (String × Value)
  designTypes : List (String × DType)

/-- `Reflect.getMetadata(metaClassDecorators, prototype) || []`: the own
entry of the most derived prototype that has one. -/
def getMetadataKeys : List ProtoNode → List String
  | [] => []
  | node :: rest =>
    match node.ownKeys with
    | some keys => keys
    | none => getMetadataKeys rest

/-- `Reflect.getMetadata(metaDecorators, prototype, propertyKey)`: the own
per-property entry of the most derived prototype that has one (an empty
stored list is an entry, and truthy in JS, so it is returned). -/
def getMetadataChain : List ProtoNode → String → Option (List DecoratorConfig)
  | [], _ => none
  | node :: rest, propertyKey =>
    match node.ownChains.lookup propertyKey with
    | some chain => some chain
    | none => getMetadataChain rest propertyKey

/-- The `reduce` body of `query` over the decorated property keys.
`Reflect.getOwnMetadata(metaClassDecorators, prototype, propertyKey)` is
always `undefined` — `metaClassDecorators` is only ever defined on a
prototype without a property key — so `usedHandlers` is always the
`metaDecorators` chain lookup, and a key without one is skipped. The
`design:type` entry is recorded before the value is resolved; an
`undefined` resolved value leaves `values` untouched. -/
def queryFold (createRec : ClassObject → Except JSError Value) (env : EnvMap)
    (c : ClassObject) : ClassMeta → List String → Except JSError ClassMeta
  | sum, [] => .ok sum
  | sum, propertyKey :: rest =>
    match getMetadataChain c.protos propertyKey with
    | none => queryFold createRec env c sum rest
    | some usedHandlers =>
      let designType := lookupDT c.designTypes propertyKey
      let sum1 : ClassMeta :=
        { sum with designTypes := setKey sum.designTypes propertyKey designType }
      match resolveValue createRec env designType usedHandlers with
      | .error e => .error e
      | .ok none => queryFold createRec env c sum1 rest
      | .ok (some v) =>
        queryFold createRec env c
          { sum1 with values := setKey sum1.values propertyKey v } rest

/-- `new Subclass()` overlays every resolved value over the field defaults
the constructor assigned, then `onBuild` (a no-op on the base class) runs;
the instance's prototype chain is the fresh subclass, the target class and
its ancestors. -/
def buildInstance (c : ClassObject) (values : List (String × Value)) : Value :=
  .obj (("(subclass) " ++ c.name) :: c.name :: c.ancestors)
    (values.foldl (fun acc kv => setKey acc kv.1 kv.2) c.defaults)

/-- `CreateResult` as returned by `query`. -/
structure CreateResult : Type where
  errors : Option (List ValidationError)
  result : Option Value

/-- `SettingFactory.query(classObject)` with the nested recursion
abstracted: collect `classMeta` over the decorated keys, `$validate`, and
return either the built instance or the validation errors. -/
def queryWith (createRec : ClassObject → Except JSError Value) (env : EnvMap)
    (c : ClassObject) : Except JSError CreateResult := do
  let keys := getMetadataKeys c.protos
  let classMeta ← queryFold createRec env c ⟨[], []⟩ keys
  let validate ← Settings.validate classMeta.values classMeta.designTypes
  if validate.success then
    pure ⟨none, some (buildInstance c classMeta.values)⟩
  else
    pure ⟨validate.errors, none⟩

/-- `SettingFactory.create` given the outcome of `query`: throw
`ValidationError.join(errors)` when `errors` is non-null, otherwise return
`result` (cast; `query` always pairs null errors with an instance). -/
def createWith (queryResult : Except JSError CreateResult) : Except JSError Value :=
  match queryResult with
  | .error e => .error e
  | .ok r =>
    match r.errors with
    | some errs => .error (ValidationError.join errs)
    | none =>
      match r.result with
      | some v => .ok v
      | none => .ok .null

/-- The model of stack exhaustion when nested classes recurse forever. -/
def stackOverflow : JSError := ⟨"Maximum call stack size exceeded"⟩

/-- `SettingFactory.query(classObject)`: ties the nested recursion
(`nestedHandler` → `factory.create` → `query`) with a fuel parameter. -/
def query (env : EnvMap) : Nat → ClassObject → Except JSError CreateResult
  | 0, c => queryWith (fun _ => .error stackOverflow) env c
  | fuel + 1, c => queryWith (fun c' => createWith (query env fuel c')) env c

/-- `SettingFactory.create(classObject)`: `query` then throw-or-return. -/
def create (env : EnvMap) (fuel : Nat) (c : ClassObject) : Except JSError Value :=
  createWith (query env fuel c)

/-- The create function `query` hands to `nestedHandler` at a given fuel. -/
def queryCreateRec (env : EnvMap) : Nat → ClassObject → Except JSError Value
  | 0, _ => .error stackOverflow
  | fuel + 1, c => createWith (query env fuel c)

end SettingFactory

/-- The `overwrite()` decorator applied to a property of a prototype:
`Reflect.defineMetadata(metaDecorators, [], target, propertyKey)` installs
an own empty chain, shadowing any inherited one. -/
def overwrite (propertyKey : String) (target : ProtoNode) : ProtoNode :=
  { target with ownChains := setKey target.ownChains propertyKey [] }

/-- `defineKeyConfig(config, target, propertyKey)` in the common case of a
prototype whose ancestors carry no metadata (so `getOrCreateKeyList` finds
or creates the target's own lists): add the key to the class `Set` and
push the config onto the property's chain. -/
def defineKeyConfig (config : DecoratorConfig) (target : ProtoNode) : ProtoNode :=
  let keys := target.ownKeys.getD []
  let chain := (target.ownChains.lookup config.propertyKey).getD []
  { ownKeys := some (if keys.contains config.propertyKey then keys
      else keys ++ [config.propertyKey])
    ownChains := setKey target.ownChains config.propertyKey (chain ++ [config]) }

/-- A stack of decorators written textually top to bottom is applied
bottom to top (TypeScript evaluates the decorator expressions downward but
calls the resulting decorators upward), so the textually topmost
decorator's config is pushed last. -/
def applyDecoratorStack (stack : List (ProtoNode → ProtoNode)) (target : ProtoNode) :
    ProtoNode :=
  stack.reverse.foldl (fun t d => d t) target

/-! ### Derived predicates and concrete scenario classes -/

/-- Does this entry of a `values` map fail its type check?  (Reads off the
`.ok false` outcome of `Settings.$validateType` at the field's looked-up
design type.) -/
def fieldFails (designTypes : List (String × DType)) (kv : String × Value) : Bool :=
  match Settings.validateType (lookupDT designTypes kv.1) kv.2 with
  | .ok false => true
  | _ => false

/-- The `ValidationError` that `$validate` pushes for a failing entry. -/
def errorFor (designTypes : List (String × DType)) (kv : String × Value) :
    ValidationError :=
  .make kv.1 (lookupDT designTypes kv.1) kv.2

/-- The own fields of an instance object. -/
def Value.objFields : Value → List (String × Value)
  | .obj _ fields => fields
  | _ => []

/-- A `Settings` subclass with one decorated field `p` of design type
`dt`, stored decorator chain `chain` and class-field default `dflt`. -/
def singleFieldClass (nm p : String) (dt : DType) (chain : List DecoratorConfig)
    (dflt : Value) : ClassObject :=
  .mk nm ["Settings"] [⟨some [p], [(p, chain)]⟩] [(p, dt)] [(p, dflt)]

/-- The prototype metadata left by a single `@env(X)` on field `p`. -/
def baseNodeEnv (p X : String) : ProtoNode :=
  defineKeyConfig ⟨p, .env X⟩ ⟨none, []⟩

/-- Base class `B`: field `x` sourced from environment variable `X`. -/
def classB (X : String) (bDflt : Value) : ClassObject :=
  .mk "B" ["Settings"] [baseNodeEnv "x" X] [("x", .stringCtor)] [("x", bDflt)]

/-- Subclass `S` of `B`: `@overwrite()` on `x` (own empty chain shadowing
the inherited one), its own default for `x`, and no other declarations. -/
def classS (X : String) (sDflt : Value) : ClassObject :=
  .mk "S" ["B", "Settings"] [overwrite "x" ⟨none, []⟩, baseNodeEnv "x" X]
    [("x", .stringCtor)] [("x", sDflt)]

/-- A transform that returns `undefined` whatever it is fed. -/
def dropAll : Option Value → Option Value := fun _ => none

/-- Environment for the transform counterexample: only `N` is set. -/
def envN : EnvMap := fun n => if n = "N" then some "x" else none

/-- Environment for the nested counterexample: only `_NESTED` is set. -/
def envNested : EnvMap := fun n => if n = "_NESTED" then some "supfoo" else none

/-- A nested settings class whose one field resolves to a string but is
declared `Number`, so its own validation fails. -/
def innerBad : ClassObject :=
  singleFieldClass "Nested" "config" .numberCtor [⟨"config", .env "_NESTED"⟩] .null

/-- An outer settings class holding `innerBad` behind a `@nested()`. -/
def outerBad : ClassObject :=
  singleFieldClass "Outer" "nested" (.classType innerBad) [⟨"nested", .nested⟩] .null

/-- Environment for the precedence witnesses: `A ↦ va`, `B ↦ vb`. -/
def envAB : EnvMap :=
  fun n => if n = "A" then some "va" else if n = "B" then some "vb" else none

/-- Environment with only `B` set. -/
def envOnlyB : EnvMap := fun n => if n = "B" then some "vb" else none

/-- The everywhere-unset environment. -/
def envEmpty : EnvMap := fun _ => none

/-- A `Settings` subclass with no decorated fields. -/
def emptyClass : ClassObject := .mk "E" ["Settings"] [] [] []

/-- The `query` outcome on `emptyClass`. -/
def emptyResult : SettingFactory.CreateResult :=
  ⟨none, some (.obj ["(subclass) E", "E", "Settings"] [])⟩

/-- A class that is not a `Settings` subclass. -/
def plainClass : ClassObject := .mk "P" [] [] [] []

/-- A class whose one field resolves from `N` to a string but is declared
`Number`, so validation fails. -/
def badClass : ClassObject :=
  singleFieldClass "T" "foo" .numberCtor [⟨"foo", .env "N"⟩] .null

/-! ### Helper lemmas -/

theorem SettingFactory.query_eq_queryWith (env : EnvMap) (fuel : Nat) (c : ClassObject) :
    SettingFactory.query env fuel c =
      SettingFactory.queryWith (SettingFactory.queryCreateRec env fuel) env c := by
  cases fuel <;> rfl

theorem jsJoin_mem_decomp (sep x : String) (l : List String) (h : x ∈ l) :
    ∃ a b, jsJoin sep l = a ++ (x ++ b) := by
  induction l with
  | nil => cases h
  | cons y ys ih =>
    rcases List.mem_cons.mp h with rfl | hx
    · cases ys with
      | nil => exact ⟨"", "", by simp [jsJoin]⟩
      | cons z zs =>
        exact ⟨"", sep ++ jsJoin sep (z :: zs), by
          simp [jsJoin, String.append_assoc]⟩
    · obtain ⟨a, b, hab⟩ := ih hx
      have hys : ys ≠ [] := List.ne_nil_of_mem hx
      cases ys with
      | nil => exact absurd rfl hys
      | cons z zs =>
        exact ⟨y ++ sep ++ a, b, by
          simp [jsJoin, hab, String.append_assoc]⟩

theorem Settings.validateType_isOk (t : DType) (v : Value) (h : t.falsy = false) :
    ∃ b, Settings.validateType t v = .ok b := by
  cases t <;>
    simp_all [Settings.validateType, validators, instanceOf, DType.falsy]

theorem Settings.validateFold_eq (dts : List (String × DType))
    (vals : List (String × Value)) (acc : List ValidationError)
    (h : ∀ kv ∈ vals, (lookupDT dts kv.1).falsy = false) :
    Settings.validateFold dts acc vals =
      .ok (acc ++ (vals.filter (fieldFails dts)).map (errorFor dts)) := by
  induction vals generalizing acc with
  | nil => simp [Settings.validateFold]
  | cons kv rest ih =>
    obtain ⟨k, v⟩ := kv
    have ht : (lookupDT dts k).falsy = false := h (k, v) (by simp)
    obtain ⟨b, hb⟩ := Settings.validateType_isOk (lookupDT dts k) v ht
    have hrest : ∀ kv ∈ rest, (lookupDT dts kv.1).falsy = false :=
      fun kv hkv => h kv (by simp [hkv])
    cases b with
    | true =>
      rw [Settings.validateFold, if_neg (by simp [ht]), hb]
      simp only [ih _ hrest]
      simp [List.filter, fieldFails, hb]
    | false =>
      rw [Settings.validateFold, if_neg (by simp [ht]), hb]
      simp only [ih _ hrest]
      simp [List.filter, fieldFails, hb, errorFor]

theorem Settings.validate_shape (vals : List (String × Value))
    (dts : List (String × DType)) (vr : ValidateResult)
    (h : Settings.validate vals dts = .ok vr) :
    vr = ⟨none, true⟩ ∨ ∃ l, l ≠ [] ∧ vr = ⟨some l, false⟩ := by
  unfold Settings.validate at h
  cases hf : Settings.validateFold dts [] vals with
  | error e => rw [hf] at h; cases h
  | ok errs =>
    rw [hf] at h
    by_cases hl : errs.length = 0
    · left
      simp only [hl, if_pos rfl, bind, Except.bind, pure, Except.pure] at h
      exact (Except.ok.injEq _ _).mp h.symm |>.symm ▸ rfl
    · right
      refine ⟨errs, fun hnil => hl (by simp [hnil]), ?_⟩
      simp only [hl, if_neg hl, bind, Except.bind, pure, Except.pure] at h
      exact ((Except.ok.injEq _ _).mp h).symm

theorem Settings.validateFold_error (dts : List (String × DType)) (k : String)
    (v : Value) (post : List (String × Value)) :
    ∀ (pre : List (String × Value)) (acc : List ValidationError),
      (∀ kv ∈ pre, (lookupDT dts kv.1).falsy = false) →
      (lookupDT dts k).falsy = true →
      Settings.validateFold dts acc (pre ++ (k, v) :: post) =
        .error ⟨"Could not resolve type for " ++ k⟩
  | [], acc, _, hk => by
    simp only [List.nil_append]
    rw [Settings.validateFold, if_pos (by simp [hk])]
  | (k', v') :: rest, acc, hpre, hk => by
    have ht : (lookupDT dts k').falsy = false := hpre (k', v') (by simp)
    obtain ⟨b, hb⟩ := Settings.validateType_isOk (lookupDT dts k') v' ht
    have hrest : ∀ kv ∈ rest, (lookupDT dts kv.1).falsy = false :=
      fun kv hkv => hpre kv (by simp [hkv])
    have hres := Settings.validateFold_error dts k v post rest
    cases b with
    | true =>
      rw [List.cons_append, Settings.validateFold, if_neg (by simp [ht]), hb]
      exact hres acc hrest hk
    | false =>
      rw [List.cons_append, Settings.validateFold, if_neg (by simp [ht]), hb]
      exact hres _ hrest hk

/-! ### Claim theorems -/

/-- C1: Chain precedence. For a field whose declaration chain is
[D1 (topmost), D2] — stored in push order as `[d2, d1]`, since stacked
decorators apply bottom to top — (i) if D1's evaluator yields a defined
value on the input the rest of the chain produced, the resolved value is
D1's value, whatever D2 yielded; (ii) if D1's evaluator yields absent, the
rest of the chain's outcome stands, so a defined D2 value wins; (iii) if
the whole chain yields absent, the field is omitted from the resolved
values map and the class default is left in force on the instance. -/
theorem chain_precedence (env : EnvMap) (fuel : Nat) (dt : DType)
    (d1 d2 : DecoratorConfig) (nm p : String) (dflt : Value) :
    (∀ v2 w, SettingFactory.resolveValue (SettingFactory.queryCreateRec env fuel) env dt [d2]
          = .ok v2 →
        runHandler (SettingFactory.queryCreateRec env fuel) env v2 dt d1 = .ok (some w) →
        SettingFactory.resolveValue (SettingFactory.queryCreateRec env fuel) env dt [d2, d1]
          = .ok (some w))
  ∧ (∀ v2, SettingFactory.resolveValue (SettingFactory.queryCreateRec env fuel) env dt [d2]
          = .ok v2 →
        runHandler (SettingFactory.queryCreateRec env fuel) env v2 dt d1 = .ok none →
        SettingFactory.resolveValue (SettingFactory.queryCreateRec env fuel) env dt [d2, d1]
          = .ok v2)
  ∧ (SettingFactory.resolveValue (SettingFactory.queryCreateRec env fuel) env dt [d2, d1]
          = .ok none →
        SettingFactory.query env fuel (singleFieldClass nm p dt [d2, d1] dflt) =
          .ok ⟨none, some (.obj ["(subclass) " ++ nm, nm, "Settings"] [(p, dflt)])⟩) := by
  refine ⟨?_, ?_, ?_⟩
  · intro v2 w h2 h1
    cases hr : runHandler (SettingFactory.queryCreateRec env fuel) env none dt d2 with
    | error e =>
      simp [SettingFactory.resolveValue, SettingFactory.resolveFold, hr] at h2
    | ok o =>
      have hv2 : o = v2 := by
        cases o <;>
          simpa [SettingFactory.resolveValue, SettingFactory.resolveFold, hr] using h2
      subst hv2
      cases o <;>
        simp [SettingFactory.resolveValue, SettingFactory.resolveFold, hr, h1]
  · intro v2 h2 h1
    cases hr : runHandler (SettingFactory.queryCreateRec env fuel) env none dt d2 with
    | error e =>
      simp [SettingFactory.resolveValue, SettingFactory.resolveFold, hr] at h2
    | ok o =>
      have hv2 : o = v2 := by
        cases o <;>
          simpa [SettingFactory.resolveValue, SettingFactory.resolveFold, hr] using h2
      subst hv2
      cases o <;>
        simp [SettingFactory.resolveValue, SettingFactory.resolveFold, hr, h1]
  · intro hnone
    rw [SettingFactory.query_eq_queryWith]
    simp [SettingFactory.queryWith, singleFieldClass, SettingFactory.getMetadataKeys,
      SettingFactory.getMetadataChain, SettingFactory.queryFold, ClassObject.protos,
      ClassObject.designTypes, ClassObject.defaults, ClassObject.name, ClassObject.ancestors,
      lookupDT, setKey, hnone, Settings.validate, Settings.validateFold,
      SettingFactory.buildInstance, bind, Except.bind, pure, Except.pure]

/-- C1 witness: with `A ↦ va, B ↦ vb` the topmost declaration `env A` wins;
with only `B` set the topmost yields absent and `env B`'s value is used;
with neither set the field is omitted and the default `d` stands. -/
theorem chain_precedence_witness :
    SettingFactory.resolveValue (SettingFactory.queryCreateRec envAB 0) envAB .stringCtor
        [⟨"p", .env "B"⟩, ⟨"p", .env "A"⟩] = .ok (some (.str "va"))
  ∧ SettingFactory.resolveValue (SettingFactory.queryCreateRec envOnlyB 0) envOnlyB .stringCtor
        [⟨"p", .env "B"⟩, ⟨"p", .env "A"⟩] = .ok (some (.str "vb"))
  ∧ SettingFactory.query envEmpty 0
        (singleFieldClass "T" "p" .stringCtor [⟨"p", .env "B"⟩, ⟨"p", .env "A"⟩] (.str "d")) =
      .ok ⟨none, some (.obj ["(subclass) T", "T", "Settings"] [("p", .str "d")])⟩ := by
  refine ⟨?_, ?_, ?_⟩
  · exact (chain_precedence envAB 0 .stringCtor ⟨"p", .env "A"⟩ ⟨"p", .env "B"⟩ "T" "p"
      (.str "d")).1 (some (.str "vb")) (.str "va") rfl rfl
  · exact (chain_precedence envOnlyB 0 .stringCtor ⟨"p", .env "A"⟩ ⟨"p", .env "B"⟩ "T" "p"
      (.str "d")).2.1 (some (.str "vb")) rfl rfl
  · exact (chain_precedence envEmpty 0 .stringCtor ⟨"p", .env "A"⟩ ⟨"p", .env "B"⟩ "T" "p"
      (.str "d")).2.2 rfl

/-- C3: Validation is exhaustive. Provided every field in the values map
has a truthy design type (else `$validate` throws, see C10), `$validate`
returns one `ValidationError` per failing field — exactly the failing
entries, in order, with no short-circuit after the first failure — and
succeeds exactly when no field fails. -/
theorem validate_exhaustive (vals : List (String × Value)) (dts : List (String × DType))
    (h : ∀ kv ∈ vals, (lookupDT dts kv.1).falsy = false) :
    Settings.validate vals dts =
      .ok (if ((vals.filter (fieldFails dts)).map (errorFor dts)).length = 0
        then ⟨none, true⟩
        else ⟨some ((vals.filter (fieldFails dts)).map (errorFor dts)), false⟩) := by
  unfold Settings.validate
  rw [Settings.validateFold_eq dts vals [] h]
  by_cases hl : ((vals.filter (fieldFails dts)).map (errorFor dts)).length = 0
  · simp [hl, bind, Except.bind, pure, Except.pure]
  · simp only [bind, Except.bind, pure, Except.pure, List.nil_append]
    rw [if_neg hl, if_neg hl]

/-- C3 witness: two simultaneously invalid fields yield exactly two
`ValidationError`s, one per field. -/
theorem validate_exhaustive_witness :
    Settings.validate [("a", .str "x"), ("b", .boolean true)]
        [("a", .numberCtor), ("b", .numberCtor)] =
      .ok ⟨some [ValidationError.make "a" .numberCtor (.str "x"),
                 ValidationError.make "b" .numberCtor (.boolean true)], false⟩ := by
  have h := validate_exhaustive [("a", .str "x"), ("b", .boolean true)]
    [("a", .numberCtor), ("b", .numberCtor)]
    (by intro kv hkv; fin_cases hkv <;> rfl)
  exact h.trans (by rfl)

/-- C6: Type-validation semantics. `$validateType` uses the builtin
registry for the `Boolean`/`Number`/`String` constructors (typeof-style
checks) and the literal `null` type (value must be exactly null); for any
class type there is no builtin entry and the check is is-instance-of; and
for a field with a truthy declared type, validation of that field succeeds
iff the applicable check accepts its value. -/
theorem type_validation_semantics :
    (∀ v, Settings.validateType .boolCtor v =
        .ok (match v with | .boolean _ => true | _ => false))
  ∧ (∀ v, Settings.validateType .numberCtor v =
        .ok (match v with | .num _ => true | _ => false))
  ∧ (∀ v, Settings.validateType .stringCtor v =
        .ok (match v with | .str _ => true | _ => false))
  ∧ (∀ v, Settings.validateType .nullType v =
        .ok (match v with | .null => true | _ => false))
  ∧ (∀ c v, validators (.classType c) = none
        ∧ Settings.validateType (.classType c) v = .ok (v.protoChainHas c.name))
  ∧ (∀ (t : DType) (k : String) (v : Value), t.falsy = false →
        (Settings.validate [(k, v)] [(k, t)] = .ok ⟨none, true⟩ ↔
          Settings.validateType t v = .ok true)) := by
  refine ⟨fun v => rfl, fun v => rfl, fun v => rfl, fun v => rfl,
    fun c v => ⟨rfl, rfl⟩, ?_⟩
  intro t k v ht
  have hDT : lookupDT [(k, t)] k = t := by simp [lookupDT]
  obtain ⟨b, hb⟩ := Settings.validateType_isOk t v ht
  cases b with
  | true =>
    constructor
    · intro _; exact hb
    · intro _
      simp [Settings.validate, Settings.validateFold, hDT, if_neg, ht, hb,
        bind, Except.bind, pure, Except.pure]
  | false =>
    constructor
    · intro hcon
      exfalso
      rw [Settings.validate] at hcon
      rw [Settings.validateFold, if_neg (by simp [hDT, ht]), hDT, hb] at hcon
      simp [Settings.validateFold, bind, Except.bind, pure, Except.pure] at hcon
    · intro hcon
      rw [hb] at hcon
      exact absurd ((Except.ok.injEq _ _).mp hcon) (by simp)

/-- C6 witness: a number-typed field holding a number passes validation. -/
theorem type_validation_semantics_witness :
    Settings.validate [("a", .num 3)] [("a", .numberCtor)] = .ok ⟨none, true⟩ :=
  (type_validation_semantics.2.2.2.2.2 .numberCtor "a" (.num 3) rfl).mpr rfl

/-- C10: A field that resolved to a defined value but whose declared type
is falsy (`null` or `undefined`) makes `$validate` throw
`Could not resolve type for <field>` instead of producing a
`ValidationError` (the fields iterated before it having truthy types);
hence a field declared with the literal `null` type can never pass
validation through `query`/`create`, even though `$validateType(null,
null)` returns `true`. -/
theorem missing_design_type_throws (dts : List (String × DType))
    (pre post : List (String × Value)) (k : String) (v : Value)
    (hpre : ∀ kv ∈ pre, (lookupDT dts kv.1).falsy = false)
    (hk : (lookupDT dts k).falsy = true) :
    Settings.validate (pre ++ (k, v) :: post) dts =
      .error ⟨"Could not resolve type for " ++ k⟩
  ∧ Settings.validateType .nullType .null = .ok true
  ∧ (∀ (env : EnvMap) (fuel : Nat) (nm p name : String) (dflt : Value) (s : String),
      env name = some s →
      SettingFactory.query env fuel (singleFieldClass nm p .nullType [⟨p, .env name⟩] dflt) =
        .error ⟨"Could not resolve type for " ++ p⟩) := by
  refine ⟨?_, rfl, ?_⟩
  · rw [Settings.validate, Settings.validateFold_error dts k v post pre [] hpre hk]
    rfl
  · intro env fuel nm p name dflt s hs
    rw [SettingFactory.query_eq_queryWith]
    simp [SettingFactory.queryWith, singleFieldClass, SettingFactory.getMetadataKeys,
      SettingFactory.getMetadataChain, SettingFactory.queryFold,
      SettingFactory.resolveValue, SettingFactory.resolveFold, runHandler,
      environmentHandler, hs, ClassObject.protos, ClassObject.designTypes,
      ClassObject.defaults, lookupDT, setKey, Settings.validate,
      Settings.validateFold, DType.falsy, bind, Except.bind, pure, Except.pure]

/-- C10 witness: a field of declared type literal `null` resolving to the
value `null` makes `$validate` throw, and `query` propagates the throw
when such a field resolves from the environment. -/
theorem missing_design_type_throws_witness :
    Settings.validate [("a", .null)] [("a", .nullType)] =
      .error ⟨"Could not resolve type for a"⟩
  ∧ SettingFactory.query envN 1 (singleFieldClass "T" "a" .nullType [⟨"a", .env "N"⟩] .null) =
      .error ⟨"Could not resolve type for a"⟩ := by
  have h := missing_design_type_throws [("a", .nullType)] [] [] "a" .null
    (by intro kv hkv; cases hkv) rfl
  exact ⟨h.1, h.2.2 envN 1 "T" "a" "N" .null "x" rfl⟩

/-- C2 counterexample: `query` does raise. A validation failure inside a
nested `Settings` field propagates as the exception thrown by the inner
`factory.create` (which `nestedHandler` invokes), instead of the
structured-errors return the claim promises. -/
theorem query_nested_failure_raises :
    SettingFactory.query envNested 2 outerBad =
      .error ⟨"Error in config fields\nconfig (supfoo) failed to parse as type [Function Number]"⟩ :=
  rfl

/-- C2 amended: `query` can raise — a nested field's validation failure
propagates as the inner `create`'s joined exception, and structural errors
(bad nested design type, missing design type for a resolved value) also
throw — but whenever `query` does return, the result is exactly one of
`{result: instance, errors: null}` or `{result: null, errors: non-empty}`. -/
theorem query_result_shape (env : EnvMap) (fuel : Nat) (c : ClassObject)
    (r : SettingFactory.CreateResult)
    (h : SettingFactory.query env fuel c = .ok r) :
    (r.errors = none ∧ ∃ v, r.result = some v) ∨
    (∃ errs, errs ≠ [] ∧ r.errors = some errs ∧ r.result = none) := by
  rw [SettingFactory.query_eq_queryWith] at h
  simp only [SettingFactory.queryWith, bind, Except.bind] at h
  cases hq : SettingFactory.queryFold (SettingFactory.queryCreateRec env fuel) env c ⟨[], []⟩
      (SettingFactory.getMetadataKeys c.protos) with
  | error e =>
    rw [hq] at h
    simp at h
  | ok meta =>
    rw [hq] at h
    dsimp only at h
    cases hv : Settings.validate meta.values meta.designTypes with
    | error e =>
      rw [hv] at h
      simp at h
    | ok vr =>
      rw [hv] at h
      rcases Settings.validate_shape _ _ _ hv with rfl | ⟨l, hl, rfl⟩
      · left
        simp only [pure, Except.pure, if_pos] at h
        cases h
        exact ⟨rfl, _, rfl⟩
      · right
        simp only [pure, Except.pure] at h
        rw [if_neg (by simp)] at h
        cases h
        exact ⟨l, hl, rfl, rfl⟩

/-- C2 witness: on a class with no declarations `query` returns the
success shape. -/
theorem query_result_shape_witness :
    (emptyResult.errors = none ∧ ∃ v, emptyResult.result = some v) ∨
    (∃ errs, errs ≠ [] ∧ emptyResult.errors = some errs ∧ emptyResult.result = none) :=
  query_result_shape envEmpty 0 emptyClass emptyResult rfl

/-- C4: `create` is sugar over `query` that raises: it returns `query`'s
instance on success, and on a non-empty error list raises exactly one
combined error whose message contains every offending field's name and
every error's individual message. -/
theorem create_sugar_over_query (env : EnvMap) (fuel : Nat) (c : ClassObject) :
    (∀ v, SettingFactory.query env fuel c = .ok ⟨none, some v⟩ →
        SettingFactory.create env fuel c = .ok v)
  ∧ (∀ errs, SettingFactory.query env fuel c = .ok ⟨some errs, none⟩ →
        SettingFactory.create env fuel c = .error (ValidationError.join errs)
      ∧ ∀ e ∈ errs,
          (∃ a b, (ValidationError.join errs).message = a ++ (e.propertyKey ++ b))
        ∧ (∃ a b, (ValidationError.join errs).message = a ++ (e.message ++ b))) := by
  constructor
  · intro v h
    rw [SettingFactory.create, h]
    rfl
  · intro errs h
    refine ⟨by rw [SettingFactory.create, h]; rfl, ?_⟩
    intro e he
    constructor
    · obtain ⟨a, b, hab⟩ := jsJoin_mem_decomp ", " e.propertyKey
        (errs.map (·.propertyKey)) (List.mem_map_of_mem _ he)
      refine ⟨"Error in " ++ a, b ++ " fields\n" ++ jsJoin "\n" (errs.map (·.message)), ?_⟩
      simp [ValidationError.join, hab, String.append_assoc]
    · obtain ⟨a, b, hab⟩ := jsJoin_mem_decomp "\n" e.message
        (errs.map (·.message)) (List.mem_map_of_mem _ he)
      refine ⟨"Error in " ++ jsJoin ", " (errs.map (·.propertyKey)) ++ " fields\n" ++ a, b, ?_⟩
      simp [ValidationError.join, hab, String.append_assoc]

/-- C4 witness: one failing field; `create` raises the joined error and
the message contains the field name. -/
theorem create_sugar_over_query_witness :
    SettingFactory.create envN 0 badClass =
      .error (ValidationError.join [ValidationError.make "foo" .numberCtor (.str "x")])
  ∧ (∃ a b, (ValidationError.join [ValidationError.make "foo" .numberCtor (.str "x")]).message
        = a ++ ("foo" ++ b)) := by
  have h := (create_sugar_over_query envN 0 badClass).2
    [ValidationError.make "foo" .numberCtor (.str "x")] rfl
  exact ⟨h.1, (h.2 (ValidationError.make "foo" .numberCtor (.str "x"))
    (List.mem_singleton.mpr rfl)).1⟩

/-- C5 counterexample: with `N ↦ "x"` set and the transform `dropAll`
(which returns undefined on every input) stacked above `env(N)`, the
claim's "the field resolves to f(envValue)" fails: `f(envValue)` is
absent, yet the field resolves to the raw env value `"x"` — a handler
returning undefined falls back to the upstream value instead of
determining the result. -/
theorem transform_wrapping_cex :
    SettingFactory.resolveValue (SettingFactory.queryCreateRec envN 0) envN .stringCtor
        [⟨"p", .env "N"⟩, ⟨"p", .parse dropAll⟩] = .ok (some (.str "x"))
  ∧ dropAll (some (.str "x")) = none
  ∧ envN "N" = some "x" :=
  ⟨rfl, rfl, rfl⟩

/-- C5 amended: for `transform(f)` stacked above `env(NAME)`, `f` is
always invoked on exactly what the env lookup produced — including the
absent value when NAME is unset; the engine never suppresses the call —
and the field resolves to `f`'s output when that output is defined,
falling back to the upstream env value (defined or absent) when `f`
returns absent. -/
theorem transform_wrapping (createRec : ClassObject → Except JSError Value)
    (env : EnvMap) (dt : DType) (name p q : String)
    (fn : Option Value → Option Value) :
    SettingFactory.resolveValue createRec env dt [⟨p, .env name⟩, ⟨q, .parse fn⟩] =
      .ok (match fn ((env name).map Value.str) with
        | some w => some w
        | none => (env name).map Value.str) := by
  cases h1 : env name with
  | none =>
    cases h2 : fn none <;>
      simp [SettingFactory.resolveValue, SettingFactory.resolveFold, runHandler,
        environmentHandler, parseHandler, h1, h2]
  | some s =>
    cases h2 : fn (some (.str s)) <;>
      simp [SettingFactory.resolveValue, SettingFactory.resolveFold, runHandler,
        environmentHandler, parseHandler, h1, h2]

/-- C7: Subclass override isolation. Overwriting `x` on subclass `S`
(clearing the inherited chain) makes resolving `S` independent of the
environment — variable `X` is never read and `x` takes `S`'s class
default — while resolving base class `B` still reads `X` and resolves `x`
from it: the overwrite left `B`'s own chain unchanged. -/
theorem subclass_override_isolation (X : String) (bD sD : Value) (env : EnvMap)
    (fuel : Nat) :
    (SettingFactory.query env fuel (classS X sD) =
        .ok ⟨none, some (.obj ["(subclass) S", "S", "B", "Settings"] [("x", sD)])⟩)
  ∧ (∀ env' : EnvMap,
        SettingFactory.query env fuel (classS X sD) =
          SettingFactory.query env' fuel (classS X sD))
  ∧ (∀ s, env X = some s →
        SettingFactory.query env fuel (classB X bD) =
          .ok ⟨none, some (.obj ["(subclass) B", "B", "Settings"] [("x", .str s)])⟩) := by
  have hS : ∀ e : EnvMap, SettingFactory.query e fuel (classS X sD) =
      .ok ⟨none, some (.obj ["(subclass) S", "S", "B", "Settings"] [("x", sD)])⟩ := by
    intro e
    rw [SettingFactory.query_eq_queryWith]
    simp [SettingFactory.queryWith, classS, overwrite, baseNodeEnv, defineKeyConfig,
      SettingFactory.getMetadataKeys, SettingFactory.getMetadataChain,
      SettingFactory.queryFold, SettingFactory.resolveValue, SettingFactory.resolveFold,
      ClassObject.protos, ClassObject.designTypes, ClassObject.defaults,
      ClassObject.name, ClassObject.ancestors, lookupDT, setKey, Settings.validate,
      Settings.validateFold, SettingFactory.buildInstance, bind, Except.bind,
      pure, Except.pure]
  refine ⟨hS env, fun env' => (hS env).trans (hS env').symm, ?_⟩
  intro s hs
  rw [SettingFactory.query_eq_queryWith]
  simp [SettingFactory.queryWith, classB, baseNodeEnv, defineKeyConfig,
    SettingFactory.getMetadataKeys, SettingFactory.getMetadataChain,
    SettingFactory.queryFold, SettingFactory.resolveValue, SettingFactory.resolveFold,
    runHandler, environmentHandler, hs, ClassObject.protos, ClassObject.designTypes,
    ClassObject.defaults, ClassObject.name, ClassObject.ancestors, lookupDT, setKey,
    Settings.validate, Settings.validateFold, Settings.validateType, validators,
    DType.falsy, SettingFactory.buildInstance, bind, Except.bind, pure, Except.pure]

/-- C7 witness: with `N ↦ "x"` in the environment, resolving `B` reads it. -/
theorem subclass_override_isolation_witness :
    SettingFactory.query envN 1 (classB "N" (.str "bdef")) =
      .ok ⟨none, some (.obj ["(subclass) B", "B", "Settings"] [("x", .str "x")])⟩ :=
  (subclass_override_isolation "N" (.str "bdef") (.str "sdef") envN 1).2.2 "x" rfl

/-- C8: Nested declarations. `nestedHandler` raises a structural error
immediately when the field's design type is missing (`undefined`/`null`)
or is not a `Settings` subclass (it is not collected into the
ValidationError list — a `query` on such a class throws); otherwise the
field resolves to the result of recursively invoking `create` on the
declared class. -/
theorem nested_declaration_semantics (createRec : ClassObject → Except JSError Value)
    (sum : Option Value) (p : String) :
    (nestedHandler createRec sum .undefinedType p =
        .error ⟨"design type for " ++ p ++ " is null or undefined"⟩)
  ∧ (nestedHandler createRec sum .nullType p =
        .error ⟨"design type for " ++ p ++ " is null or undefined"⟩)
  ∧ (∀ c : ClassObject, c.settingsSubclass = false →
        nestedHandler createRec sum (.classType c) p =
          .error ⟨p ++ " is not a subclass of settings"⟩)
  ∧ (nestedHandler createRec sum .numberCtor p =
        .error ⟨p ++ " is not a subclass of settings"⟩)
  ∧ (∀ c : ClassObject, c.settingsSubclass = true →
        nestedHandler createRec sum (.classType c) p = createRec c)
  ∧ (∀ (env : EnvMap) (fuel : Nat) (nm : String) (dflt : Value) (dt : DType),
        dt = .undefinedType ∨ dt = .nullType →
        SettingFactory.query env fuel (singleFieldClass nm p dt [⟨p, .nested⟩] dflt) =
          .error ⟨"design type for " ++ p ++ " is null or undefined"⟩)
  ∧ (∀ (env : EnvMap) (fuel : Nat) (c : ClassObject),
        c.settingsSubclass = true →
        SettingFactory.resolveValue (SettingFactory.queryCreateRec env (fuel + 1)) env
            (.classType c) [⟨p, .nested⟩] =
          (SettingFactory.create env fuel c).map some) := by
  refine ⟨rfl, rfl, ?_, rfl, ?_, ?_, ?_⟩
  · intro c hc
    simp [nestedHandler, hc]
  · intro c hc
    simp [nestedHandler, hc]
  · intro env fuel nm dflt dt hdt
    rcases hdt with rfl | rfl <;>
    · rw [SettingFactory.query_eq_queryWith]
      simp [SettingFactory.queryWith, singleFieldClass, SettingFactory.getMetadataKeys,
        SettingFactory.getMetadataChain, SettingFactory.queryFold,
        SettingFactory.resolveValue, SettingFactory.resolveFold, runHandler,
        nestedHandler, ClassObject.protos, ClassObject.designTypes, lookupDT, setKey,
        bind, Except.bind]
  · intro env fuel c hc
    cases hcr : SettingFactory.createWith (SettingFactory.query env fuel c) with
    | error e =>
      simp [SettingFactory.resolveValue, SettingFactory.resolveFold, runHandler,
        nestedHandler, hc, SettingFactory.queryCreateRec, SettingFactory.create,
        hcr, bind, Except.bind, Except.map]
    | ok v =>
      simp [SettingFactory.resolveValue, SettingFactory.resolveFold, runHandler,
        nestedHandler, hc, SettingFactory.queryCreateRec, SettingFactory.create,
        hcr, bind, Except.bind, Except.map]

/-- C8 witness: a missing design type and a non-`Settings` design type
raise; a well-typed nested field resolves to the inner `create`'s result. -/
theorem nested_declaration_semantics_witness :
    nestedHandler (SettingFactory.queryCreateRec envEmpty 0) none .undefinedType "n" =
      .error ⟨"design type for n is null or undefined"⟩
  ∧ nestedHandler (SettingFactory.queryCreateRec envEmpty 0) none (.classType plainClass) "n" =
      .error ⟨"n is not a subclass of settings"⟩
  ∧ SettingFactory.resolveValue (SettingFactory.queryCreateRec envNested 2) envNested
        (.classType innerBad) [⟨"n", .nested⟩] =
      (SettingFactory.create envNested 1 innerBad).map some := by
  have h := nested_declaration_semantics (SettingFactory.queryCreateRec envEmpty 0) none "n"
  exact ⟨h.1, h.2.2.1 plainClass rfl,
    (nested_declaration_semantics (SettingFactory.queryCreateRec envNested 2) none
      "n").2.2.2.2.2.2 envNested 1 innerBad rfl⟩

/-- C9: Idempotence/determinism. Two `create` calls against the same
environment, the same (unmutated) declaration metadata and the same (pure,
as all functions of the embedding are) transforms yield instances with
equal field values — the embedding cannot observe the object-identity
difference between the two runs. -/
theorem resolution_deterministic (env : EnvMap) (fuel : Nat) (c : ClassObject)
    (i1 i2 : Value)
    (h1 : SettingFactory.create env fuel c = .ok i1)
    (h2 : SettingFactory.create env fuel c = .ok i2) :
    i1.objFields = i2.objFields ∧ i1 = i2 := by
  have h := h1.symm.trans h2
  cases h
  exact ⟨rfl, rfl⟩

/-- C9 witness: two identical `create` calls on the empty class. -/
theorem resolution_deterministic_witness :
    (Value.obj ["(subclass) E", "E", "Settings"] []).objFields =
      (Value.obj ["(subclass) E", "E", "Settings"] []).objFields
  ∧ (Value.obj ["(subclass) E", "E", "Settings"] [] : Value) =
      .obj ["(subclass) E", "E", "Settings"] [] :=
  resolution_deterministic envEmpty 0 emptyClass
    (.obj ["(subclass) E", "E", "Settings"] [])
    (.obj ["(subclass) E", "E", "Settings"] []) rfl rfl

end ClassSettings
